import Mathlib

/-!
Verification of the go-kart telemetry middleware: the VESC status codec
(`src/middleware/vesc_codec.py`), the CAN hardware-abstraction layer
(`src/middleware/can_manager.py`), the traffic-generator packet builder
(`src/mock/simulator.py`) and the aggregator bridge (`src/main.py`).

Numbers are modelled exactly: Python floats become rationals (the scale
factors 0.1, 0.001, 0.0001 are exact in ℚ), Python ints become ℤ/ℕ, and
an 8-byte CAN payload becomes a `List ℕ` of byte values.  `struct.pack`
range checking is modelled by `Option` (a `none` result stands for the
`struct.error` raised on an out-of-range argument), and `struct.unpack`
length checking is modelled by `Except Unit` (an `.error ()` result
stands for the `struct.error` raised on a buffer whose size differs from
the format size).
-/

namespace GoKart

/-- The decoded VESC status record, mirroring the `VESCStatus` dataclass of
`src/middleware/vesc_codec.py` field for field; every field defaults to
zero exactly as in the dataclass. -/
structure VESCStatus where
  temp_mos : ℚ := 0
  temp_motor : ℚ := 0
  current_motor : ℚ := 0
  current_battery : ℚ := 0
  duty_cycle : ℚ := 0
  rpm : ℤ := 0
  voltage : ℚ := 0
  amp_hours_consumed : ℚ := 0
  amp_hours_charged : ℚ := 0
  watt_hours_consumed : ℚ := 0
  watt_hours_charged : ℚ := 0
  tachometer : ℤ := 0
  tachometer_abs : ℤ := 0
  fault_code : ℤ := 0
  power : ℚ := 0
  efficiency : ℚ := 0
deriving Repr, DecidableEq

/-- The five reserved VESC CAN identifiers (`CAN_PACKET_STATUS` .. `_5`). -/
def CAN_PACKET_STATUS : ℕ := 2
def CAN_PACKET_STATUS_2 : ℕ := 3
def CAN_PACKET_STATUS_3 : ℕ := 4
def CAN_PACKET_STATUS_4 : ℕ := 5
def CAN_PACKET_STATUS_5 : ℕ := 6

/-- Byte `i` of a payload (payloads are lists of byte values `< 256`). -/
def byteAt (data : List ℕ) (i : ℕ) : ℕ := data.getD i 0

/-- Little-endian 16-bit value from two bytes. -/
def u16le (b0 b1 : ℕ) : ℕ := b0 + 256 * b1

/-- Little-endian 32-bit value from four bytes. -/
def u32le (b0 b1 b2 b3 : ℕ) : ℕ := b0 + 256 * b1 + 65536 * b2 + 16777216 * b3

/-- Reinterpret an unsigned 16-bit value as two's-complement signed
(`struct` format `h`). -/
def i16ofU (v : ℕ) : ℤ := if v < 32768 then (v : ℤ) else (v : ℤ) - 65536

/-- Reinterpret an unsigned 32-bit value as two's-complement signed
(`struct` format `i`). -/
def i32ofU (v : ℕ) : ℤ := if v < 2147483648 then (v : ℤ) else (v : ℤ) - 4294967296

/-- `VESCCodec._decode_status_1`: guard `len(data) < 8` returns the default
record; `struct.unpack("<hhhBx", data)` demands exactly 8 bytes and reads
three little-endian signed 16-bit values and one unsigned byte, scaled by
0.1, 0.1, 0.1 and 0.001. -/
def decode_status_1 (data : List ℕ) : Except Unit VESCStatus :=
  if data.length < 8 then .ok {}
  else if data.length = 8 then .ok
    { temp_mos := (i16ofU (u16le (byteAt data 0) (byteAt data 1)) : ℚ) * (1/10)
      current_motor := (i16ofU (u16le (byteAt data 2) (byteAt data 3)) : ℚ) * (1/10)
      current_battery := (i16ofU (u16le (byteAt data 4) (byteAt data 5)) : ℚ) * (1/10)
      duty_cycle := (byteAt data 6 : ℚ) * (1/1000) }
  else .error ()

/-- `VESCCodec._decode_status_2`: `struct.unpack("<iHxx", data)` reads a
signed 32-bit rpm and an unsigned 16-bit voltage scaled by 0.1. -/
def decode_status_2 (data : List ℕ) : Except Unit VESCStatus :=
  if data.length < 8 then .ok {}
  else if data.length = 8 then .ok
    { rpm := i32ofU (u32le (byteAt data 0) (byteAt data 1) (byteAt data 2) (byteAt data 3))
      voltage := (u16le (byteAt data 4) (byteAt data 5) : ℚ) * (1/10) }
  else .error ()

/-- `VESCCodec._decode_status_3`: `struct.unpack("<ii", data)` reads two
signed 32-bit amp-hour counters scaled by 0.0001. -/
def decode_status_3 (data : List ℕ) : Except Unit VESCStatus :=
  if data.length < 8 then .ok {}
  else if data.length = 8 then .ok
    { amp_hours_consumed :=
        (i32ofU (u32le (byteAt data 0) (byteAt data 1) (byteAt data 2) (byteAt data 3)) : ℚ)
          * (1/10000)
      amp_hours_charged :=
        (i32ofU (u32le (byteAt data 4) (byteAt data 5) (byteAt data 6) (byteAt data 7)) : ℚ)
          * (1/10000) }
  else .error ()

/-- `VESCCodec._decode_status_4`: `struct.unpack("<ii", data)` reads two
signed 32-bit watt-hour counters scaled by 0.0001. -/
def decode_status_4 (data : List ℕ) : Except Unit VESCStatus :=
  if data.length < 8 then .ok {}
  else if data.length = 8 then .ok
    { watt_hours_consumed :=
        (i32ofU (u32le (byteAt data 0) (byteAt data 1) (byteAt data 2) (byteAt data 3)) : ℚ)
          * (1/10000)
      watt_hours_charged :=
        (i32ofU (u32le (byteAt data 4) (byteAt data 5) (byteAt data 6) (byteAt data 7)) : ℚ)
          * (1/10000) }
  else .error ()

/-- `VESCCodec._decode_status_5`: `struct.unpack("<iI", data)` reads a
signed 32-bit tachometer and an unsigned 32-bit absolute tachometer. -/
def decode_status_5 (data : List ℕ) : Except Unit VESCStatus :=
  if data.length < 8 then .ok {}
  else if data.length = 8 then .ok
    { tachometer := i32ofU (u32le (byteAt data 0) (byteAt data 1) (byteAt data 2) (byteAt data 3))
      tachometer_abs :=
        (u32le (byteAt data 4) (byteAt data 5) (byteAt data 6) (byteAt data 7) : ℤ) }
  else .error ()

/-- `VESCCodec.decode_status_frame`: dispatch on the CAN identifier; an
unrecognized identifier yields `None` (here `.ok none`). -/
def decode_status_frame (can_id : ℕ) (data : List ℕ) : Except Unit (Option VESCStatus) :=
  if can_id = CAN_PACKET_STATUS then (decode_status_1 data).map some
  else if can_id = CAN_PACKET_STATUS_2 then (decode_status_2 data).map some
  else if can_id = CAN_PACKET_STATUS_3 then (decode_status_3 data).map some
  else if can_id = CAN_PACKET_STATUS_4 then (decode_status_4 data).map some
  else if can_id = CAN_PACKET_STATUS_5 then (decode_status_5 data).map some
  else .ok none

/-- One step of the field-folding loop in `VESCCodec.merge_status_frames`:
for every field of the incoming frame, a non-zero value overwrites the
accumulator and a zero value leaves it unchanged.  The loop never touches
`power` or `efficiency`. -/
def mergeOne (acc f : VESCStatus) : VESCStatus :=
  { acc with
    temp_mos := if f.temp_mos ≠ 0 then f.temp_mos else acc.temp_mos
    temp_motor := if f.temp_motor ≠ 0 then f.temp_motor else acc.temp_motor
    current_motor := if f.current_motor ≠ 0 then f.current_motor else acc.current_motor
    current_battery := if f.current_battery ≠ 0 then f.current_battery else acc.current_battery
    duty_cycle := if f.duty_cycle ≠ 0 then f.duty_cycle else acc.duty_cycle
    rpm := if f.rpm ≠ 0 then f.rpm else acc.rpm
    voltage := if f.voltage ≠ 0 then f.voltage else acc.voltage
    amp_hours_consumed :=
      if f.amp_hours_consumed ≠ 0 then f.amp_hours_consumed else acc.amp_hours_consumed
    amp_hours_charged :=
      if f.amp_hours_charged ≠ 0 then f.amp_hours_charged else acc.amp_hours_charged
    watt_hours_consumed :=
      if f.watt_hours_consumed ≠ 0 then f.watt_hours_consumed else acc.watt_hours_consumed
    watt_hours_charged :=
      if f.watt_hours_charged ≠ 0 then f.watt_hours_charged else acc.watt_hours_charged
    tachometer := if f.tachometer ≠ 0 then f.tachometer else acc.tachometer
    tachometer_abs := if f.tachometer_abs ≠ 0 then f.tachometer_abs else acc.tachometer_abs
    fault_code := if f.fault_code ≠ 0 then f.fault_code else acc.fault_code }

/-- The `for frame in status_frames` loop of `merge_status_frames`: start
from a fresh default record, skip `None` entries, fold every other frame
with `mergeOne`. -/
def foldFrames (frames : List (Option VESCStatus)) : VESCStatus :=
  frames.foldl (fun acc of => match of with | none => acc | some f => mergeOne acc f) {}

/-- `VESCCodec.merge_status_frames`: fold the supplied partial records,
then compute the derived values: `power = voltage * current_battery`, and
`efficiency = current_motor * voltage / power * 100` only when
`power > 0` (otherwise `efficiency` keeps its folded value). -/
def merge_status_frames (frames : List (Option VESCStatus)) : VESCStatus :=
  let m := foldFrames frames
  let p := m.voltage * m.current_battery
  { m with
    power := p
    efficiency := if p > 0 then m.current_motor * m.voltage / p * 100 else m.efficiency }

/-- Python `int()` applied to a (real-valued) quantity: truncation toward
zero, as used by the simulator when scaling physical values to raw wire
integers. -/
def pyInt (q : ℚ) : ℤ := if 0 ≤ q then ⌊q⌋ else ⌈q⌉

/-- Low byte of the 16-bit two's-complement representation of `v`. -/
def i16b0 (v : ℤ) : ℕ := (v % 65536).toNat % 256

/-- High byte of the 16-bit two's-complement representation of `v`. -/
def i16b1 (v : ℤ) : ℕ := (v % 65536).toNat / 256

/-- The four little-endian bytes of the 32-bit two's-complement
representation of `v`. -/
def i32bytes (v : ℤ) : List ℕ :=
  [(v % 4294967296).toNat % 256, (v % 4294967296).toNat / 256 % 256,
   (v % 4294967296).toNat / 65536 % 256, (v % 4294967296).toNat / 16777216 % 256]

/-- `struct.pack("<hhhBx", ...)` as used by `VESCSimulator._generate_packets`
for Status Frame 1: three signed 16-bit values, one unsigned byte, one pad
byte.  `none` models the `struct.error` raised when an argument is out of
range for its format. -/
def pack_status_1 (t m b d : ℤ) : Option (List ℕ) :=
  if -32768 ≤ t ∧ t ≤ 32767 ∧ -32768 ≤ m ∧ m ≤ 32767 ∧ -32768 ≤ b ∧ b ≤ 32767 ∧
      0 ≤ d ∧ d ≤ 255 then
    some [i16b0 t, i16b1 t, i16b0 m, i16b1 m, i16b0 b, i16b1 b, d.toNat, 0]
  else none

/-- `struct.pack("<iHxx", ...)` for Status Frame 2: a signed 32-bit rpm, an
unsigned 16-bit voltage, two pad bytes. -/
def pack_status_2 (rpm v : ℤ) : Option (List ℕ) :=
  if -2147483648 ≤ rpm ∧ rpm ≤ 2147483647 ∧ 0 ≤ v ∧ v ≤ 65535 then
    some (i32bytes rpm ++ [v.toNat % 256, v.toNat / 256, 0, 0])
  else none

/-- `struct.pack("<ii", ...)` for Status Frames 3 and 4: two signed 32-bit
values. -/
def pack_ii (a b : ℤ) : Option (List ℕ) :=
  if -2147483648 ≤ a ∧ a ≤ 2147483647 ∧ -2147483648 ≤ b ∧ b ≤ 2147483647 then
    some (i32bytes a ++ i32bytes b)
  else none

/-- `struct.pack("<iI", ...)` for Status Frame 5: a signed and an unsigned
32-bit value. -/
def pack_status_5 (a b : ℤ) : Option (List ℕ) :=
  if -2147483648 ≤ a ∧ a ≤ 2147483647 ∧ 0 ≤ b ∧ b ≤ 4294967295 then
    some (i32bytes a ++ i32bytes b)
  else none

/-- The simulator's Status Frame 1 builder applied to physical values:
`struct.pack("<hhhBx", int(temp_mos*10), int(motor_current*10),
int(battery_current*10), int(duty_cycle*1000))`. -/
def encode_status_1 (temp_mos motor_current battery_current duty_cycle : ℚ) :
    Option (List ℕ) :=
  pack_status_1 (pyInt (temp_mos * 10)) (pyInt (motor_current * 10))
    (pyInt (battery_current * 10)) (pyInt (duty_cycle * 1000))

/-- The simulator's Status Frame 2 builder:
`struct.pack("<iHxx", int(rpm), int(voltage*10))`. -/
def encode_status_2 (rpm : ℤ) (voltage : ℚ) : Option (List ℕ) :=
  pack_status_2 rpm (pyInt (voltage * 10))

/-- The simulator's Status Frame 3 builder:
`struct.pack("<ii", int(ah_consumed*10000), int(ah_charged*10000))`. -/
def encode_status_3 (ah_consumed ah_charged : ℚ) : Option (List ℕ) :=
  pack_ii (pyInt (ah_consumed * 10000)) (pyInt (ah_charged * 10000))

/-- The simulator's Status Frame 4 builder:
`struct.pack("<ii", int(wh_consumed*10000), int(wh_charged*10000))`. -/
def encode_status_4 (wh_consumed wh_charged : ℚ) : Option (List ℕ) :=
  pack_ii (pyInt (wh_consumed * 10000)) (pyInt (wh_charged * 10000))

/-- The simulator's Status Frame 5 builder:
`struct.pack("<iI", tachometer, tachometer_abs)`. -/
def encode_status_5 (tachometer tachometer_abs : ℤ) : Option (List ℕ) :=
  pack_status_5 tachometer tachometer_abs

/-- Enumeration of the fourteen base fields of `VESCStatus` (the fields
folded by the merge loop; `power` and `efficiency` are derived, not
folded). -/
inductive SField where
  | temp_mos | temp_motor | current_motor | current_battery | duty_cycle
  | rpm | voltage | amp_hours_consumed | amp_hours_charged
  | watt_hours_consumed | watt_hours_charged
  | tachometer | tachometer_abs | fault_code
deriving Repr, DecidableEq

/-- Read a base field as a rational (integer fields are cast; the cast is
injective and preserves zero, so non-zero tests agree). -/
def fieldQ (f : SField) (s : VESCStatus) : ℚ :=
  match f with
  | .temp_mos => s.temp_mos
  | .temp_motor => s.temp_motor
  | .current_motor => s.current_motor
  | .current_battery => s.current_battery
  | .duty_cycle => s.duty_cycle
  | .rpm => (s.rpm : ℚ)
  | .voltage => s.voltage
  | .amp_hours_consumed => s.amp_hours_consumed
  | .amp_hours_charged => s.amp_hours_charged
  | .watt_hours_consumed => s.watt_hours_consumed
  | .watt_hours_charged => s.watt_hours_charged
  | .tachometer => (s.tachometer : ℚ)
  | .tachometer_abs => (s.tachometer_abs : ℚ)
  | .fault_code => (s.fault_code : ℚ)

/-- The value the spec's merge rule assigns to a field: the last non-zero
value for that field among the supplied records in order, or zero if no
record supplies a non-zero value. -/
def lastNonZero (f : SField) (frames : List (Option VESCStatus)) : ℚ :=
  frames.foldl
    (fun a of => match of with
      | none => a
      | some s => if fieldQ f s ≠ 0 then fieldQ f s else a) 0

/-- Overwrite the two derived fields of a record, leaving the base fields
alone (used to state that stored `power`/`efficiency` values in the input
partial records never influence the merge). -/
def setDerived (p e : ℚ) (s : VESCStatus) : VESCStatus :=
  { s with power := p, efficiency := e }

/-- `TelemetryBridge.on_can_message` (`src/main.py`): decode the frame; on
a successful decode store the record in the cache slot for that identifier
(full overwrite), then merge the five known slots in the fixed order
status 1, 2, 3, 4, 5 and emit the merged snapshot.  The result is the new
cache together with the emitted snapshot, if any; `.error` propagates a
decoder exception. -/
def on_can_message (cache : ℕ → Option VESCStatus) (can_id : ℕ) (data : List ℕ) :
    Except Unit ((ℕ → Option VESCStatus) × Option VESCStatus) :=
  match decode_status_frame can_id data with
  | .error e => .error e
  | .ok none => .ok (cache, none)
  | .ok (some status) =>
      let cache2 : ℕ → Option VESCStatus := fun i => if i = can_id then some status else cache i
      let frames := [cache2 CAN_PACKET_STATUS, cache2 CAN_PACKET_STATUS_2,
                     cache2 CAN_PACKET_STATUS_3, cache2 CAN_PACKET_STATUS_4,
                     cache2 CAN_PACKET_STATUS_5]
      .ok (cache2, some (merge_status_frames frames))

/-- The environment of one `CANManager.send` call: the manager's `running`
and `virtual` flags, whether `self.socket` is present, and whether the
endpoint write (`self.socket.send`) would succeed or raise. -/
structure SendEnv where
  running : Bool
  virtual : Bool
  socketPresent : Bool
  writeSucceeds : Bool
deriving Repr, DecidableEq

/-- `CANManager.send`: returns the boolean result together with the 8-byte
data field actually written to the endpoint (`none` when nothing was
written).  The wire data field is `struct.pack("8s", data[:8])`: the
payload truncated to its first 8 bytes and zero-padded to exactly 8.
Every failure path of the Python code returns `False`; the `try/except`
around the socket write means no exception escapes. -/
def send (env : SendEnv) (data : List ℕ) : Bool × Option (List ℕ) :=
  if env.running = false then (false, none)
  else if env.virtual then (true, none)
  else if env.socketPresent = false then (false, none)
  else if env.writeSucceeds then
    (true, some (data.take 8 ++ List.replicate (8 - (data.take 8).length) 0))
  else (false, none)

/-- A handler registered in the dispatch table: it may raise
(`.error ()`). -/
def Handler : Type := List ℕ → Except Unit Unit

/-- One event observed by the body of `CANManager._receive_loop`. -/
inductive RxEvent where
  /-- `socket.recv` returned a full packet carrying this identifier and
  8-byte data slice. -/
  | frame (can_id : ℕ) (data : List ℕ)
  /-- `socket.recv` raised `socket.timeout`. -/
  | timeout
  /-- `socket.recv` returned fewer than 8 bytes. -/
  | shortRead
  /-- `self.socket` was `None` at the top of the iteration. -/
  | socketGone
  /-- `socket.recv` raised a non-timeout exception. -/
  | readError
deriving Repr, DecidableEq

/-- One iteration of the receive loop: the value of the `running` flag
observed by the `while` condition, and the event the iteration sees. -/
structure LoopIter where
  running : Bool
  ev : RxEvent

/-- Dispatch of one received frame inside `_receive_loop`: look up the
handler; `none` when no handler is registered, otherwise `some b` where
`b` records whether the handler ran without raising (a raising handler is
caught and logged). -/
def dispatchOne (cbs : ℕ → Option Handler) (can_id : ℕ) (data : List ℕ) : Option Bool :=
  match cbs can_id with
  | none => none
  | some h => some (match h data with | .ok _ => true | .error _ => false)

/-- `CANManager._receive_loop` over a finite trace of iterations,
returning the log of dispatched frames as `(identifier, handler ran ok)`
pairs.  The loop exits when `running` is observed false; it `break`s on a
missing socket and on a non-timeout receive error; it `continue`s on a
timeout, a short read, a frame with no registered handler, and a handler
that raises. -/
def receive_loop (cbs : ℕ → Option Handler) : List LoopIter → List (ℕ × Bool)
  | [] => []
  | it :: rest =>
    if it.running then
      match it.ev with
      | .frame can_id data =>
          match dispatchOne cbs can_id data with
          | none => receive_loop cbs rest
          | some ok => (can_id, ok) :: receive_loop cbs rest
      | .timeout => receive_loop cbs rest
      | .shortRead => receive_loop cbs rest
      | .socketGone => []
      | .readError => []
    else []

/-- Drive `on_can_message` over a sequence of frames starting from a given
cache, collecting the snapshot emitted for each arrival (the aggregator
emits exactly one snapshot per successfully decoded arrival).  An
uncaught decoder exception stops processing. -/
def run_messages (cache : ℕ → Option VESCStatus) :
    List (ℕ × List ℕ) → ((ℕ → Option VESCStatus) × List (Option VESCStatus))
  | [] => (cache, [])
  | (can_id, data) :: rest =>
    match on_can_message cache can_id data with
    | .error _ => (cache, [])
    | .ok (cache2, emitted) =>
        let r := run_messages cache2 rest
        (r.1, emitted :: r.2)

/-- The empty aggregator cache (no frame type has reported yet). -/
def emptyCache : ℕ → Option VESCStatus := fun _ => none

/-- A sample dispatch table: a handler that succeeds, registered for the
primary status identifier only. -/
def cbsEx : ℕ → Option Handler :=
  fun i => if i = CAN_PACKET_STATUS then some (fun _ => .ok ()) else none

/-- A handler that always raises. -/
def failingHandler : Handler := fun _ => .error ()

/-- A sample dispatch table whose only handler always raises. -/
def cbsFail : ℕ → Option Handler :=
  fun i => if i = CAN_PACKET_STATUS then some failingHandler else none

/-- Atomic actions relevant to the dispatch-table lock discipline of
`CANManager`. -/
inductive LockAtom where
  /-- `self.callbacks.get(can_id)` -/
  | lookupTable
  /-- `self.callbacks[can_id] = cb` or `self.callbacks.pop(can_id, None)` -/
  | mutateTable
  /-- `callback(data)` -/
  | invokeHandler
deriving Repr, DecidableEq

/-- Straight-line statements of the Python methods that touch the
dispatch table: atomic actions, sequencing, and `with self.lock:`
blocks. -/
inductive Stmt where
  | atom (a : LockAtom)
  | seq (s1 s2 : Stmt)
  | withLock (body : Stmt)

/-- The trace of a statement: each atomic action paired with whether the
lock is held while it executes (`held` is the lock state on entry). -/
def lockTrace (held : Bool) : Stmt → List (LockAtom × Bool)
  | .atom a => [(a, held)]
  | .seq s1 s2 => lockTrace held s1 ++ lockTrace held s2
  | .withLock body => lockTrace true body

/-- The dispatch section of `CANManager._receive_loop` (lines 146-152):
`with self.lock:` enclosing both the table lookup and the handler
invocation. -/
def receive_dispatch_stmt : Stmt :=
  .withLock (.seq (.atom .lookupTable) (.atom .invokeHandler))

/-- `CANManager.inject_virtual_message` (lines 183-189): `with self.lock:`
enclosing both the table lookup and the handler invocation. -/
def inject_virtual_stmt : Stmt :=
  .withLock (.seq (.atom .lookupTable) (.atom .invokeHandler))

/-- `CANManager.register_callback`: `with self.lock:` around the table
write. -/
def register_callback_stmt : Stmt := .withLock (.atom .mutateTable)

/-- `CANManager.unregister_callback`: `with self.lock:` around the table
removal. -/
def unregister_callback_stmt : Stmt := .withLock (.atom .mutateTable)

/-! ### Arithmetic lemmas about the fixed-point wire encoding -/

/-- Python truncation differs from its argument by strictly less than one. -/
theorem pyInt_close (q : ℚ) : |q - (pyInt q : ℚ)| < 1 := by
  unfold pyInt
  split
  · rw [abs_lt]
    constructor
    · have := Int.floor_le q
      push_cast at this ⊢
      linarith
    · have := Int.sub_one_lt_floor q
      push_cast at this ⊢
      linarith
  · rw [abs_lt]
    constructor
    · have := Int.ceil_lt_add_one q
      push_cast at this ⊢
      linarith
    · have := Int.le_ceil q
      push_cast at this ⊢
      linarith

/-- Scaling a physical value by `s`, truncating to an integer, and
dividing back by `s` loses strictly less than `1/s`. -/
theorem pyInt_scale_close (x s : ℚ) (hs : 0 < s) :
    |(pyInt (x * s) : ℚ) * (1 / s) - x| < 1 / s := by
  have h := pyInt_close (x * s)
  rw [abs_sub_comm] at h
  have heq : (pyInt (x * s) : ℚ) * (1 / s) - x = ((pyInt (x * s) : ℚ) - x * s) * (1 / s) := by
    field_simp
    ring
  rw [heq, abs_mul, abs_of_pos (by positivity : (0 : ℚ) < 1 / s)]
  calc |(pyInt (x * s) : ℚ) - x * s| * (1 / s) < 1 * (1 / s) :=
        mul_lt_mul_of_pos_right h (by positivity)
    _ = 1 / s := one_mul _

/-- Packing a signed value in the 16-bit range into two little-endian
bytes and reading it back as a two's-complement 16-bit integer is the
identity. -/
theorem i16_roundtrip (v : ℤ) (h1 : -32768 ≤ v) (h2 : v ≤ 32767) :
    i16ofU (u16le (i16b0 v) (i16b1 v)) = v := by
  unfold i16ofU u16le i16b0 i16b1
  split <;> omega

/-- Packing an unsigned value in the 16-bit range into two little-endian
bytes and reading it back is the identity. -/
theorem u16_roundtrip (v : ℤ) (h1 : 0 ≤ v) (h2 : v ≤ 65535) :
    (u16le (v.toNat % 256) (v.toNat / 256) : ℤ) = v := by
  unfold u16le
  omega

/-- Packing a signed value in the 32-bit range into four little-endian
bytes and reading it back as a two's-complement 32-bit integer is the
identity. -/
theorem i32_roundtrip (v : ℤ) (h1 : -2147483648 ≤ v) (h2 : v ≤ 2147483647) :
    i32ofU (u32le ((v % 4294967296).toNat % 256) ((v % 4294967296).toNat / 256 % 256)
      ((v % 4294967296).toNat / 65536 % 256) ((v % 4294967296).toNat / 16777216 % 256)) = v := by
  unfold i32ofU u32le
  split <;> omega

/-- Packing an unsigned value in the 32-bit range into four little-endian
bytes and reading it back unsigned is the identity. -/
theorem u32_roundtrip (v : ℤ) (h1 : 0 ≤ v) (h2 : v ≤ 4294967295) :
    (u32le ((v % 4294967296).toNat % 256) ((v % 4294967296).toNat / 256 % 256)
      ((v % 4294967296).toNat / 65536 % 256) ((v % 4294967296).toNat / 16777216 % 256) : ℤ) = v := by
  unfold u32le
  omega

/-! ### Decoder evaluation on an explicit 8-byte payload -/

/-- `_decode_status_1` on an explicit 8-byte payload. -/
theorem decode_status_1_eq (b0 b1 b2 b3 b4 b5 b6 b7 : ℕ) :
    decode_status_1 [b0, b1, b2, b3, b4, b5, b6, b7] = .ok
      { temp_mos := (i16ofU (u16le b0 b1) : ℚ) * (1/10)
        current_motor := (i16ofU (u16le b2 b3) : ℚ) * (1/10)
        current_battery := (i16ofU (u16le b4 b5) : ℚ) * (1/10)
        duty_cycle := (b6 : ℚ) * (1/1000) } := rfl

/-- `_decode_status_2` on an explicit 8-byte payload. -/
theorem decode_status_2_eq (b0 b1 b2 b3 b4 b5 b6 b7 : ℕ) :
    decode_status_2 [b0, b1, b2, b3, b4, b5, b6, b7] = .ok
      { rpm := i32ofU (u32le b0 b1 b2 b3)
        voltage := (u16le b4 b5 : ℚ) * (1/10) } := rfl

/-- `_decode_status_3` on an explicit 8-byte payload. -/
theorem decode_status_3_eq (b0 b1 b2 b3 b4 b5 b6 b7 : ℕ) :
    decode_status_3 [b0, b1, b2, b3, b4, b5, b6, b7] = .ok
      { amp_hours_consumed := (i32ofU (u32le b0 b1 b2 b3) : ℚ) * (1/10000)
        amp_hours_charged := (i32ofU (u32le b4 b5 b6 b7) : ℚ) * (1/10000) } := rfl

/-- `_decode_status_4` on an explicit 8-byte payload. -/
theorem decode_status_4_eq (b0 b1 b2 b3 b4 b5 b6 b7 : ℕ) :
    decode_status_4 [b0, b1, b2, b3, b4, b5, b6, b7] = .ok
      { watt_hours_consumed := (i32ofU (u32le b0 b1 b2 b3) : ℚ) * (1/10000)
        watt_hours_charged := (i32ofU (u32le b4 b5 b6 b7) : ℚ) * (1/10000) } := rfl

/-- `_decode_status_5` on an explicit 8-byte payload. -/
theorem decode_status_5_eq (b0 b1 b2 b3 b4 b5 b6 b7 : ℕ) :
    decode_status_5 [b0, b1, b2, b3, b4, b5, b6, b7] = .ok
      { tachometer := i32ofU (u32le b0 b1 b2 b3)
        tachometer_abs := (u32le b4 b5 b6 b7 : ℤ) } := rfl

/-! ### Round-trip lemmas, one per frame type -/

/-- Round trip for Status Frame 1: the three x10 fields within 0.1, the
x1000 duty field within 0.001. -/
theorem roundtrip_1 (t m b d : ℚ) (data : List ℕ)
    (h : encode_status_1 t m b d = some data) :
    ∃ s, decode_status_1 data = .ok s ∧
      |s.temp_mos - t| < 1/10 ∧ |s.current_motor - m| < 1/10 ∧
      |s.current_battery - b| < 1/10 ∧ |s.duty_cycle - d| < 1/1000 := by
  unfold encode_status_1 pack_status_1 at h
  split at h
  case isFalse => exact absurd h (by simp)
  case isTrue hr =>
    obtain ⟨h1, h2, h3, h4, h5, h6, h7, h8⟩ := hr
    rw [Option.some.injEq] at h
    subst h
    refine ⟨_, decode_status_1_eq _ _ _ _ _ _ _ _, ?_, ?_, ?_, ?_⟩
    · simpa [i16_roundtrip _ h1 h2] using pyInt_scale_close t 10 (by norm_num)
    · simpa [i16_roundtrip _ h3 h4] using pyInt_scale_close m 10 (by norm_num)
    · simpa [i16_roundtrip _ h5 h6] using pyInt_scale_close b 10 (by norm_num)
    · have hc : (((pyInt (d * 1000)).toNat : ℕ) : ℚ) = ((pyInt (d * 1000) : ℤ) : ℚ) := by
        exact_mod_cast congrArg (fun z : ℤ => (z : ℚ)) (Int.toNat_of_nonneg h7)
      simpa [hc] using pyInt_scale_close d 1000 (by norm_num)

/-- Round trip for Status Frame 2: rpm exactly, voltage within 0.1. -/
theorem roundtrip_2 (rpm : ℤ) (v : ℚ) (data : List ℕ)
    (h : encode_status_2 rpm v = some data) :
    ∃ s, decode_status_2 data = .ok s ∧ s.rpm = rpm ∧ |s.voltage - v| < 1/10 := by
  unfold encode_status_2 pack_status_2 at h
  split at h
  case isFalse => exact absurd h (by simp)
  case isTrue hr =>
    obtain ⟨h1, h2, h3, h4⟩ := hr
    rw [Option.some.injEq] at h
    subst h
    rw [i32bytes]
    refine ⟨_, decode_status_2_eq _ _ _ _ _ _ _ _, ?_, ?_⟩
    · exact i32_roundtrip rpm h1 h2
    · have hu : (u16le ((pyInt (v * 10)).toNat % 256) ((pyInt (v * 10)).toNat / 256) : ℚ) =
          ((pyInt (v * 10) : ℤ) : ℚ) := by
        exact_mod_cast congrArg (fun z : ℤ => (z : ℚ)) (u16_roundtrip _ h3 h4)
      simpa [hu] using pyInt_scale_close v 10 (by norm_num)

/-- Round trip for Status Frame 3: both x10000 fields within 0.0001. -/
theorem roundtrip_3 (ac ah : ℚ) (data : List ℕ)
    (h : encode_status_3 ac ah = some data) :
    ∃ s, decode_status_3 data = .ok s ∧
      |s.amp_hours_consumed - ac| < 1/10000 ∧ |s.amp_hours_charged - ah| < 1/10000 := by
  unfold encode_status_3 pack_ii at h
  split at h
  case isFalse => exact absurd h (by simp)
  case isTrue hr =>
    obtain ⟨h1, h2, h3, h4⟩ := hr
    rw [Option.some.injEq] at h
    subst h
    rw [i32bytes, i32bytes]
    refine ⟨_, decode_status_3_eq _ _ _ _ _ _ _ _, ?_, ?_⟩
    · simpa [i32_roundtrip _ h1 h2] using pyInt_scale_close ac 10000 (by norm_num)
    · simpa [i32_roundtrip _ h3 h4] using pyInt_scale_close ah 10000 (by norm_num)

/-- Round trip for Status Frame 4: both x10000 fields within 0.0001. -/
theorem roundtrip_4 (wc wh : ℚ) (data : List ℕ)
    (h : encode_status_4 wc wh = some data) :
    ∃ s, decode_status_4 data = .ok s ∧
      |s.watt_hours_consumed - wc| < 1/10000 ∧ |s.watt_hours_charged - wh| < 1/10000 := by
  unfold encode_status_4 pack_ii at h
  split at h
  case isFalse => exact absurd h (by simp)
  case isTrue hr =>
    obtain ⟨h1, h2, h3, h4⟩ := hr
    rw [Option.some.injEq] at h
    subst h
    rw [i32bytes, i32bytes]
    refine ⟨_, decode_status_4_eq _ _ _ _ _ _ _ _, ?_, ?_⟩
    · simpa [i32_roundtrip _ h1 h2] using pyInt_scale_close wc 10000 (by norm_num)
    · simpa [i32_roundtrip _ h3 h4] using pyInt_scale_close wh 10000 (by norm_num)

/-- Round trip for Status Frame 5: both unscaled 32-bit fields exactly. -/
theorem roundtrip_5 (tach tabs : ℤ) (data : List ℕ)
    (h : encode_status_5 tach tabs = some data) :
    ∃ s, decode_status_5 data = .ok s ∧ s.tachometer = tach ∧ s.tachometer_abs = tabs := by
  unfold encode_status_5 pack_status_5 at h
  split at h
  case isFalse => exact absurd h (by simp)
  case isTrue hr =>
    obtain ⟨h1, h2, h3, h4⟩ := hr
    rw [Option.some.injEq] at h
    subst h
    rw [i32bytes, i32bytes]
    refine ⟨_, decode_status_5_eq _ _ _ _ _ _ _ _, ?_, ?_⟩
    · exact i32_roundtrip tach h1 h2
    · exact u32_roundtrip tabs h3 h4

/-! ### Merge lemmas -/

/-- Every base field of the default record is zero. -/
theorem fieldQ_default (f : SField) : fieldQ f ({} : VESCStatus) = 0 := by
  cases f <;> simp [fieldQ]

/-- One merge step, seen through a base field: a non-zero incoming value
overwrites, a zero incoming value leaves the accumulator alone. -/
theorem fieldQ_mergeOne (f : SField) (acc s : VESCStatus) :
    fieldQ f (mergeOne acc s) = if fieldQ f s ≠ 0 then fieldQ f s else fieldQ f acc := by
  cases f <;> simp only [fieldQ, mergeOne] <;> split_ifs <;> simp_all

/-- The merge fold commutes with reading a base field. -/
theorem fieldQ_foldl (f : SField) (frames : List (Option VESCStatus)) (acc : VESCStatus) :
    fieldQ f (frames.foldl
      (fun acc of => match of with | none => acc | some s => mergeOne acc s) acc) =
    frames.foldl
      (fun a of => match of with
        | none => a
        | some s => if fieldQ f s ≠ 0 then fieldQ f s else a) (fieldQ f acc) := by
  induction frames generalizing acc with
  | nil => rfl
  | cons hd tl ih =>
    cases hd with
    | none => exact ih acc
    | some s =>
        simp only [List.foldl_cons]
        rw [ih (mergeOne acc s), fieldQ_mergeOne]

/-- Reading a base field of the folded record gives the last non-zero
value supplied for that field, or zero. -/
theorem fieldQ_foldFrames (f : SField) (frames : List (Option VESCStatus)) :
    fieldQ f (foldFrames frames) = lastNonZero f frames := by
  unfold foldFrames lastNonZero
  rw [fieldQ_foldl, fieldQ_default]

/-- The derived-value step of `merge_status_frames` does not change any
base field. -/
theorem fieldQ_merge (f : SField) (frames : List (Option VESCStatus)) :
    fieldQ f (merge_status_frames frames) = fieldQ f (foldFrames frames) := by
  cases f <;> rfl

/-- The merge fold never writes `power` or `efficiency`. -/
theorem foldl_derived (frames : List (Option VESCStatus)) (acc : VESCStatus) :
    (frames.foldl
      (fun acc of => match of with | none => acc | some s => mergeOne acc s) acc).power =
        acc.power ∧
    (frames.foldl
      (fun acc of => match of with | none => acc | some s => mergeOne acc s) acc).efficiency =
        acc.efficiency := by
  induction frames generalizing acc with
  | nil => exact ⟨rfl, rfl⟩
  | cons hd tl ih =>
    cases hd with
    | none => exact ih acc
    | some s => exact ih (mergeOne acc s)

/-- The folded record has zero `power` and `efficiency`. -/
theorem foldFrames_derived (frames : List (Option VESCStatus)) :
    (foldFrames frames).power = 0 ∧ (foldFrames frames).efficiency = 0 :=
  foldl_derived frames {}

/-- Appending one record to the fold is one merge step. -/
theorem foldFrames_append (frames : List (Option VESCStatus)) (r : VESCStatus) :
    foldFrames (frames ++ [some r]) = mergeOne (foldFrames frames) r := by
  unfold foldFrames
  rw [List.foldl_append]
  rfl

/-- Overwriting the derived fields of the inputs does not change the
fold. -/
theorem foldl_setDerived (p e : ℚ) (frames : List (Option VESCStatus)) (acc : VESCStatus) :
    ((frames.map (Option.map (setDerived p e))).foldl
      (fun acc of => match of with | none => acc | some s => mergeOne acc s) acc) =
    (frames.foldl
      (fun acc of => match of with | none => acc | some s => mergeOne acc s) acc) := by
  induction frames generalizing acc with
  | nil => rfl
  | cons hd tl ih =>
    cases hd with
    | none => exact ih acc
    | some s => exact ih (mergeOne acc s)

/-! ### Claim theorems -/

/-- C1: For each of the five reserved frame types, encoding a record of
in-range physical values into the 8-byte wire layout as the traffic
generator's packet builder does, then decoding the payload with the
codec, reconstructs every field of the original record within the stated
fixed-point rounding: x10 fields within 0.1, x1000 fields within 0.001,
x10000 fields within 0.0001, and unscaled 32-bit fields exactly. -/
theorem encode_decode_roundtrip :
    (∀ (t m b d : ℚ) (data : List ℕ), encode_status_1 t m b d = some data →
      ∃ s, decode_status_1 data = .ok s ∧
        |s.temp_mos - t| < 1/10 ∧ |s.current_motor - m| < 1/10 ∧
        |s.current_battery - b| < 1/10 ∧ |s.duty_cycle - d| < 1/1000) ∧
    (∀ (rpm : ℤ) (v : ℚ) (data : List ℕ), encode_status_2 rpm v = some data →
      ∃ s, decode_status_2 data = .ok s ∧ s.rpm = rpm ∧ |s.voltage - v| < 1/10) ∧
    (∀ (ac ah : ℚ) (data : List ℕ), encode_status_3 ac ah = some data →
      ∃ s, decode_status_3 data = .ok s ∧
        |s.amp_hours_consumed - ac| < 1/10000 ∧ |s.amp_hours_charged - ah| < 1/10000) ∧
    (∀ (wc wh : ℚ) (data : List ℕ), encode_status_4 wc wh = some data →
      ∃ s, decode_status_4 data = .ok s ∧
        |s.watt_hours_consumed - wc| < 1/10000 ∧ |s.watt_hours_charged - wh| < 1/10000) ∧
    (∀ (tach tabs : ℤ) (data : List ℕ), encode_status_5 tach tabs = some data →
      ∃ s, decode_status_5 data = .ok s ∧ s.tachometer = tach ∧ s.tachometer_abs = tabs) :=
  ⟨roundtrip_1, roundtrip_2, roundtrip_3, roundtrip_4, roundtrip_5⟩

/-- Witness for C1: concrete round trips for all five frame types. -/
theorem encode_decode_roundtrip_witness :
    (encode_status_1 25 10 15 (1/5) = some [250, 0, 100, 0, 150, 0, 200, 0] ∧
      ∃ s, decode_status_1 [250, 0, 100, 0, 150, 0, 200, 0] = .ok s ∧
        |s.temp_mos - 25| < 1/10 ∧ |s.current_motor - 10| < 1/10 ∧
        |s.current_battery - 15| < 1/10 ∧ |s.duty_cycle - 1/5| < 1/1000) ∧
    (encode_status_2 3000 48 = some [184, 11, 0, 0, 224, 1, 0, 0] ∧
      ∃ s, decode_status_2 [184, 11, 0, 0, 224, 1, 0, 0] = .ok s ∧
        s.rpm = 3000 ∧ |s.voltage - 48| < 1/10) ∧
    (encode_status_3 (1/10000) 0 = some [1, 0, 0, 0, 0, 0, 0, 0] ∧
      ∃ s, decode_status_3 [1, 0, 0, 0, 0, 0, 0, 0] = .ok s ∧
        |s.amp_hours_consumed - 1/10000| < 1/10000 ∧ |s.amp_hours_charged - 0| < 1/10000) ∧
    (encode_status_4 (123/10000) 0 = some [123, 0, 0, 0, 0, 0, 0, 0] ∧
      ∃ s, decode_status_4 [123, 0, 0, 0, 0, 0, 0, 0] = .ok s ∧
        |s.watt_hours_consumed - 123/10000| < 1/10000 ∧ |s.watt_hours_charged - 0| < 1/10000) ∧
    (encode_status_5 (-1) 1 = some [255, 255, 255, 255, 1, 0, 0, 0] ∧
      ∃ s, decode_status_5 [255, 255, 255, 255, 1, 0, 0, 0] = .ok s ∧
        s.tachometer = -1 ∧ s.tachometer_abs = 1) := by
  have h1 : encode_status_1 25 10 15 (1/5) = some [250, 0, 100, 0, 150, 0, 200, 0] := by
    norm_num [encode_status_1, pack_status_1, pyInt, i16b0, i16b1] <;> decide
  have h2 : encode_status_2 3000 48 = some [184, 11, 0, 0, 224, 1, 0, 0] := by
    norm_num [encode_status_2, pack_status_2, pyInt, i32bytes] <;> decide
  have h3 : encode_status_3 (1/10000) 0 = some [1, 0, 0, 0, 0, 0, 0, 0] := by
    norm_num [encode_status_3, pack_ii, pyInt, i32bytes] <;> decide
  have h4 : encode_status_4 (123/10000) 0 = some [123, 0, 0, 0, 0, 0, 0, 0] := by
    norm_num [encode_status_4, pack_ii, pyInt, i32bytes] <;> decide
  have h5 : encode_status_5 (-1) 1 = some [255, 255, 255, 255, 1, 0, 0, 0] := by
    norm_num [encode_status_5, pack_status_5, i32bytes] <;> decide
  exact ⟨⟨h1, encode_decode_roundtrip.1 25 10 15 (1/5) _ h1⟩,
    ⟨h2, encode_decode_roundtrip.2.1 3000 48 _ h2⟩,
    ⟨h3, encode_decode_roundtrip.2.2.1 (1/10000) 0 _ h3⟩,
    ⟨h4, encode_decode_roundtrip.2.2.2.1 (123/10000) 0 _ h4⟩,
    ⟨h5, encode_decode_roundtrip.2.2.2.2 (-1) 1 _ h5⟩⟩

/-- C2: `merge_status_frames` folds the supplied partial records in the
given order; for every base field independently, a non-zero incoming
value overwrites the accumulator and a zero incoming value never
overwrites; consequently every field of the result is the last non-zero
value supplied for it in order (or zero), and re-adding a record whose
field is zero never erases a previously accepted non-zero value. -/
theorem merge_field_semantics (f : SField) :
    (∀ acc s, fieldQ f (mergeOne acc s) =
        if fieldQ f s ≠ 0 then fieldQ f s else fieldQ f acc) ∧
    (∀ frames, fieldQ f (merge_status_frames frames) = lastNonZero f frames) ∧
    (∀ frames r, fieldQ f r = 0 →
        fieldQ f (merge_status_frames (frames ++ [some r])) =
          fieldQ f (merge_status_frames frames)) := by
  refine ⟨fieldQ_mergeOne f, ?_, ?_⟩
  · intro frames
    rw [fieldQ_merge, fieldQ_foldFrames]
  · intro frames r hr
    rw [fieldQ_merge, fieldQ_merge, foldFrames_append, fieldQ_mergeOne, hr]
    simp

/-- Witness for C2: a zero rpm from a later record does not erase a
previously merged non-zero rpm. -/
theorem merge_field_semantics_witness :
    fieldQ SField.rpm { voltage := 48 } = 0 ∧
    fieldQ SField.rpm (merge_status_frames ([some { rpm := 3000 }] ++ [some { voltage := 48 }])) =
      fieldQ SField.rpm (merge_status_frames [some { rpm := 3000 }]) := by
  have h0 : fieldQ SField.rpm { voltage := 48 } = 0 := by simp [fieldQ]
  exact ⟨h0, (merge_field_semantics SField.rpm).2.2 [some { rpm := 3000 }] { voltage := 48 } h0⟩

/-- C3: every merged snapshot satisfies `power = voltage * current_battery`
and `efficiency = current_motor * voltage / power * 100` when `power > 0`
else `efficiency = 0`; the spec's numeric examples hold; and the
`power`/`efficiency` values stored in the input partial records never
influence the output. -/
theorem merge_derived_fields :
    (∀ frames, (merge_status_frames frames).power =
        (merge_status_frames frames).voltage * (merge_status_frames frames).current_battery) ∧
    (∀ frames, (merge_status_frames frames).efficiency =
        if (merge_status_frames frames).power > 0 then
          (merge_status_frames frames).current_motor * (merge_status_frames frames).voltage /
            (merge_status_frames frames).power * 100
        else 0) ∧
    (∀ frames (p e : ℚ),
        merge_status_frames (frames.map (Option.map (setDerived p e))) =
          merge_status_frames frames) ∧
    (merge_status_frames [some { voltage := 48, current_battery := 10 }]).power = 480 ∧
    (merge_status_frames
        [some { voltage := 48, current_battery := 10, current_motor := 9 }]).efficiency = 90 ∧
    (merge_status_frames [some { voltage := 48 }]).power = 0 ∧
    (merge_status_frames [some { voltage := 48 }]).efficiency = 0 := by
  refine ⟨fun frames => rfl, ?_, ?_,
    by norm_num [merge_status_frames, foldFrames, mergeOne],
    by norm_num [merge_status_frames, foldFrames, mergeOne],
    by norm_num [merge_status_frames, foldFrames, mergeOne],
    by norm_num [merge_status_frames, foldFrames, mergeOne]⟩
  · intro frames
    have he := (foldFrames_derived frames).2
    simp only [merge_status_frames]
    rw [he]
  · intro frames p e
    unfold merge_status_frames foldFrames
    rw [foldl_setDerived]

/-- Wrapping a decoder result with `some` preserves exactly the error
cases. -/
theorem map_some_error_iff (x : Except Unit VESCStatus) :
    x.map some = .error () ↔ x = .error () := by
  cases x with
  | ok v => simp [Except.map]
  | error e => cases e; simp [Except.map]

/-- `_decode_status_1` raises exactly on payloads longer than 8 bytes. -/
theorem decode_status_1_error_iff (data : List ℕ) :
    decode_status_1 data = .error () ↔ 8 < data.length := by
  unfold decode_status_1
  split_ifs <;> simp <;> omega

/-- `_decode_status_2` raises exactly on payloads longer than 8 bytes. -/
theorem decode_status_2_error_iff (data : List ℕ) :
    decode_status_2 data = .error () ↔ 8 < data.length := by
  unfold decode_status_2
  split_ifs <;> simp <;> omega

/-- `_decode_status_3` raises exactly on payloads longer than 8 bytes. -/
theorem decode_status_3_error_iff (data : List ℕ) :
    decode_status_3 data = .error () ↔ 8 < data.length := by
  unfold decode_status_3
  split_ifs <;> simp <;> omega

/-- `_decode_status_4` raises exactly on payloads longer than 8 bytes. -/
theorem decode_status_4_error_iff (data : List ℕ) :
    decode_status_4 data = .error () ↔ 8 < data.length := by
  unfold decode_status_4
  split_ifs <;> simp <;> omega

/-- `_decode_status_5` raises exactly on payloads longer than 8 bytes. -/
theorem decode_status_5_error_iff (data : List ℕ) :
    decode_status_5 data = .error () ↔ 8 < data.length := by
  unfold decode_status_5
  split_ifs <;> simp <;> omega

/-- C4: the primary-frame decode scales bytes 0-5 as claimed, but the
claim's duty range is impossible in the code: the duty value occupies the
single unsigned byte 6, so its raw range is 0-255, the decoded duty cycle
is at most 0.255, and the simulator's packer rejects the raw value 500
that a duty cycle of 0.5 would need (`struct.error`). -/
theorem duty_byte_code_bug :
    (∀ b0 b1 b2 b3 b4 b5 b6 b7 : ℕ,
      decode_status_1 [b0, b1, b2, b3, b4, b5, b6, b7] = .ok
        { temp_mos := (i16ofU (u16le b0 b1) : ℚ) * (1/10)
          current_motor := (i16ofU (u16le b2 b3) : ℚ) * (1/10)
          current_battery := (i16ofU (u16le b4 b5) : ℚ) * (1/10)
          duty_cycle := (b6 : ℚ) * (1/1000) }) ∧
    pyInt ((1/2 : ℚ) * 1000) = 500 ∧
    pack_status_1 250 100 150 500 = none ∧
    (∀ (b6 : Fin 256) (b0 b1 b2 b3 b4 b5 b7 : ℕ),
      ∃ s, decode_status_1 [b0, b1, b2, b3, b4, b5, (b6 : ℕ), b7] = .ok s ∧
        s.duty_cycle = ((b6 : ℕ) : ℚ) * (1/1000) ∧ s.duty_cycle ≤ 51/200) ∧
    decode_status_1 [250, 0, 100, 0, 150, 0, 200, 0] = .ok
      { temp_mos := 25, current_motor := 10, current_battery := 15, duty_cycle := 1/5 } := by
  refine ⟨decode_status_1_eq, by norm_num [pyInt], by decide, ?_,
    by norm_num [decode_status_1, byteAt, u16le, i16ofU]⟩
  intro b6 b0 b1 b2 b3 b4 b5 b7
  refine ⟨_, decode_status_1_eq b0 b1 b2 b3 b4 b5 (b6 : ℕ) b7, rfl, ?_⟩
  have hb : (((b6 : ℕ) : ℕ) : ℚ) ≤ 255 := by
    exact_mod_cast Nat.le_of_lt_succ b6.isLt
  show ((b6 : ℕ) : ℚ) * (1/1000) ≤ 51/200
  linarith

/-- C5: for every reserved frame-type identifier, a payload strictly
shorter than 8 bytes decodes to the all-default record without
raising. -/
theorem decode_short_payload (can_id : ℕ) (hid : can_id ∈ ([2, 3, 4, 5, 6] : List ℕ))
    (data : List ℕ) (hlen : data.length < 8) :
    decode_status_frame can_id data = .ok (some {}) := by
  fin_cases hid <;>
    simp [decode_status_frame, CAN_PACKET_STATUS, CAN_PACKET_STATUS_2, CAN_PACKET_STATUS_3,
      CAN_PACKET_STATUS_4, CAN_PACKET_STATUS_5, decode_status_1, decode_status_2,
      decode_status_3, decode_status_4, decode_status_5, hlen, Except.map]

/-- Witness for C5: a 4-byte payload on the primary identifier decodes to
the default record. -/
theorem decode_short_payload_witness :
    (2 ∈ ([2, 3, 4, 5, 6] : List ℕ)) ∧ ([0, 0, 0, 0] : List ℕ).length < 8 ∧
    decode_status_frame 2 [0, 0, 0, 0] = .ok (some {}) :=
  ⟨by decide, by decide, decode_short_payload 2 (by decide) [0, 0, 0, 0] (by decide)⟩

/-- C6: for every reserved frame-type identifier, decoding raises exactly
when the payload is strictly longer than 8 bytes (the length guard only
checks `len(data) < 8`, and `struct.unpack` demands exactly 8 bytes), so
decode is raise-free precisely for payloads of length at most 8. -/
theorem decode_oversize_raises (can_id : ℕ) (hid : can_id ∈ ([2, 3, 4, 5, 6] : List ℕ))
    (data : List ℕ) :
    decode_status_frame can_id data = .error () ↔ 8 < data.length := by
  fin_cases hid <;>
    simp only [decode_status_frame, CAN_PACKET_STATUS, CAN_PACKET_STATUS_2,
      CAN_PACKET_STATUS_3, CAN_PACKET_STATUS_4, CAN_PACKET_STATUS_5] <;>
    norm_num <;>
    rw [map_some_error_iff] <;>
    simp only [decode_status_1_error_iff, decode_status_2_error_iff,
      decode_status_3_error_iff, decode_status_4_error_iff, decode_status_5_error_iff]

/-- Witness for C6: a 9-byte payload on the primary identifier raises,
and an 8-byte payload does not. -/
theorem decode_oversize_raises_witness :
    (2 ∈ ([2, 3, 4, 5, 6] : List ℕ)) ∧
    (decode_status_frame 2 [0, 0, 0, 0, 0, 0, 0, 0, 0] = .error () ↔
      8 < ([0, 0, 0, 0, 0, 0, 0, 0, 0] : List ℕ).length) :=
  ⟨by decide, decode_oversize_raises 2 (by decide) [0, 0, 0, 0, 0, 0, 0, 0, 0]⟩

/-- C7: the aggregator stores each decoded record in its identifier's
cache slot by full overwrite, merges the five slots in the fixed order
1..5 and emits exactly one snapshot per arrival; however, the claim's
concrete scenario is impossible in the code: the primary frame's raw duty
value 500 does not fit byte 6 (`struct.pack` raises), so the emitted
`dutyCycle` 0.5 is unreachable.  With the in-range raw duty 200 the rest
of the scenario holds: rpm 3000, voltage 48, power 720. -/
theorem aggregator_scenario_bug :
    pack_status_1 250 100 150 500 = none ∧
    (run_messages emptyCache
        [(2, [250, 0, 100, 0, 150, 0, 200, 0]), (3, [184, 11, 0, 0, 224, 1, 0, 0])]).2 =
      [some { temp_mos := 25, current_motor := 10, current_battery := 15, duty_cycle := 1/5 },
       some { temp_mos := 25, current_motor := 10, current_battery := 15, duty_cycle := 1/5,
              rpm := 3000, voltage := 48, power := 720, efficiency := 200/3 }] ∧
    (run_messages emptyCache
        [(2, [250, 0, 100, 0, 150, 0, 200, 0]), (2, [0, 0, 50, 0, 0, 0, 0, 0])]).1 2 =
      some { current_motor := 5 } := by
  refine ⟨by decide, ?_, ?_⟩ <;>
    norm_num [run_messages, on_can_message, decode_status_frame, decode_status_1,
      decode_status_2, CAN_PACKET_STATUS, CAN_PACKET_STATUS_2, CAN_PACKET_STATUS_3,
      CAN_PACKET_STATUS_4, CAN_PACKET_STATUS_5, byteAt, u16le, u32le, i16ofU, i32ofU,
      emptyCache, merge_status_frames, foldFrames, mergeOne, Except.map]

/-- C8: `send` writes at most 8 bytes — a longer payload is truncated to
its first 8 bytes and a shorter one is zero-padded to 8 on the wire; in
virtual mode (while running) it performs no endpoint write and returns
success; in live mode a failed endpoint write yields `False`, and the
model is total, so no exception reaches the caller. -/
theorem send_contract (env : SendEnv) (data : List ℕ) :
    (∀ w, (send env data).2 = some w →
        w.length = 8 ∧ w = data.take 8 ++ List.replicate (8 - (data.take 8).length) 0) ∧
    (env.virtual = true → env.running = true → send env data = (true, none)) ∧
    (env.virtual = false → env.writeSucceeds = false → (send env data).1 = false) := by
  unfold send
  refine ⟨?_, ?_, ?_⟩
  · intro w hw
    split_ifs at hw <;> simp_all
    rw [← hw]
    simp [List.length_append, List.length_take, List.length_replicate]
  · intro hv hr
    simp [hv, hr]
  · intro hv hw
    split_ifs <;> simp_all

/-- Witness for C8: a 10-byte payload is truncated to 8 on the wire; a
virtual-mode send writes nothing and succeeds; a live-mode send with a
failing endpoint write returns `False`. -/
theorem send_contract_witness :
    (([1, 2, 3, 4, 5, 6, 7, 8] : List ℕ).length = 8 ∧
      ([1, 2, 3, 4, 5, 6, 7, 8] : List ℕ) =
        ([1, 2, 3, 4, 5, 6, 7, 8, 9, 10] : List ℕ).take 8 ++
          List.replicate (8 - (([1, 2, 3, 4, 5, 6, 7, 8, 9, 10] : List ℕ).take 8).length) 0) ∧
    send ⟨true, true, true, true⟩ [1, 2, 3] = (true, none) ∧
    (send ⟨true, false, true, false⟩ [1, 2, 3]).1 = false :=
  ⟨(send_contract ⟨true, false, true, true⟩ [1, 2, 3, 4, 5, 6, 7, 8, 9, 10]).1
      [1, 2, 3, 4, 5, 6, 7, 8] (by decide),
   (send_contract ⟨true, true, true, true⟩ [1, 2, 3]).2.1 rfl rfl,
   (send_contract ⟨true, false, true, false⟩ [1, 2, 3]).2.2 rfl rfl⟩

/-- C9 (amended): in the receive loop, a dispatched frame never prevents
processing of the rest of the trace — in particular a handler that raises
is caught, logged as a failed dispatch, and the loop continues; a timeout
or short read simply continues; the loop exits when `running` is observed
false, and it also breaks on a missing socket or a non-timeout receive
error. -/
theorem receive_loop_contract :
    (∀ cbs can_id data rest,
      receive_loop cbs (⟨true, RxEvent.frame can_id data⟩ :: rest) =
        (match dispatchOne cbs can_id data with
         | none => []
         | some ok => [(can_id, ok)]) ++ receive_loop cbs rest) ∧
    (∀ (cbs : ℕ → Option Handler) (h : Handler) data can_id rest,
      cbs can_id = some h → h data = .error () →
      receive_loop cbs (⟨true, RxEvent.frame can_id data⟩ :: rest) =
        (can_id, false) :: receive_loop cbs rest) ∧
    (∀ cbs rest, receive_loop cbs (⟨true, RxEvent.timeout⟩ :: rest) = receive_loop cbs rest) ∧
    (∀ cbs rest, receive_loop cbs (⟨true, RxEvent.shortRead⟩ :: rest) = receive_loop cbs rest) ∧
    (∀ cbs ev rest, receive_loop cbs (⟨false, ev⟩ :: rest) = []) ∧
    (∀ cbs rest, receive_loop cbs (⟨true, RxEvent.readError⟩ :: rest) = []) ∧
    (∀ cbs rest, receive_loop cbs (⟨true, RxEvent.socketGone⟩ :: rest) = []) := by
  refine ⟨?_, ?_, fun cbs rest => rfl, fun cbs rest => rfl, fun cbs ev rest => rfl,
    fun cbs rest => rfl, fun cbs rest => rfl⟩
  · intro cbs can_id data rest
    simp only [receive_loop]
    cases hd : dispatchOne cbs can_id data <;> simp
  · intro cbs h data can_id rest hcb hr
    simp [receive_loop, dispatchOne, hcb, hr]

/-- Witness for C9: the failing handler registered for identifier 2 is
dispatched, recorded as failed, and the loop goes on. -/
theorem receive_loop_contract_witness :
    cbsFail 2 = some failingHandler ∧ failingHandler [] = .error () ∧
    receive_loop cbsFail [⟨true, RxEvent.frame 2 []⟩] = (2, false) :: receive_loop cbsFail [] :=
  ⟨rfl, rfl, receive_loop_contract.2.1 cbsFail failingHandler [] 2 [] rfl rfl⟩

/-- Counterexample to C9 as stated: a non-timeout receive error breaks
the loop even though the transport is still marked running — the frame
behind it, whose handler is registered and would have been dispatched, is
never processed.  So the loop does not terminate only when the transport
is marked not-running. -/
theorem receive_loop_error_break_cex :
    receive_loop cbsEx
        [⟨true, RxEvent.readError⟩, ⟨true, RxEvent.frame 2 [0, 0, 0, 0, 0, 0, 0, 0]⟩] = [] ∧
    receive_loop cbsEx [⟨true, RxEvent.frame 2 [0, 0, 0, 0, 0, 0, 0, 0]⟩] = [(2, true)] :=
  ⟨rfl, rfl⟩

/-- Counterexample to C10 as stated: in both the receive loop's dispatch
section and the virtual injection path, the handler is invoked while the
dispatch-table lock is held — the lock is not released between the table
lookup and the handler call. -/
theorem lock_held_during_dispatch_cex :
    (LockAtom.invokeHandler, true) ∈ lockTrace false receive_dispatch_stmt ∧
    (LockAtom.invokeHandler, true) ∈ lockTrace false inject_virtual_stmt := by
  decide

/-- C10 (amended): every read or write of the dispatch table — the lookup
in the receive and injection paths, and the register/unregister
mutations — happens under the lock, but the handler invocation in both
dispatch paths also happens while the lock is held, so a slow handler
does block concurrent register/unregister calls. -/
theorem lock_discipline :
    ((lockTrace false receive_dispatch_stmt).all fun p => p.2) = true ∧
    ((lockTrace false inject_virtual_stmt).all fun p => p.2) = true ∧
    ((lockTrace false register_callback_stmt).all fun p => p.2) = true ∧
    ((lockTrace false unregister_callback_stmt).all fun p => p.2) = true ∧
    (LockAtom.invokeHandler, true) ∈ lockTrace false receive_dispatch_stmt ∧
    (LockAtom.invokeHandler, true) ∈ lockTrace false inject_virtual_stmt := by
  decide

end GoKart
